import Mathlib

/-! # Book Finder: query-and-pagination controller and bookmark store

A shallow embedding of `src/App.jsx` (the `BookFinderApp` component) and the
properties of its search, pagination and bookmark logic.

Conventions of the embedding:

* JavaScript numbers that the component handles (page numbers, years, cover
  ids, counts) are integers; they are modelled by `Int`, exact in the range
  where doubles are exact.
* An absent (`undefined`) property of a JavaScript object is `none`.
* React state is an explicit record `State`; an event handler is a function
  from the state it closes over to the state after its updates, together with
  the list of effects (toasts, network requests) it performed.
* The network is a function from the requested URL to the outcome of
  `fetch(url)` followed by `res.json()`.
-/

namespace BookFinder

/-! ## JavaScript primitives used by the component -/

/-- ECMAScript `WhiteSpace` and `LineTerminator` code points: the characters
removed by `String.prototype.trim` and skipped by `parseInt`. -/
def isJsWhitespace (c : Char) : Bool :=
  let n := c.toNat
  n == 0x09 || n == 0x0A || n == 0x0B || n == 0x0C || n == 0x0D || n == 0x20 ||
  n == 0xA0 || n == 0x1680 || (0x2000 ≤ n && n ≤ 0x200A) || n == 0x2028 ||
  n == 0x2029 || n == 0x202F || n == 0x205F || n == 0x3000 || n == 0xFEFF

/-- Characters of `s.trim()`: leading and trailing whitespace removed. -/
def trimChars (cs : List Char) : List Char :=
  ((cs.dropWhile isJsWhitespace).reverse.dropWhile isJsWhitespace).reverse

/-- JavaScript `s.trim()`. -/
def jsTrim (s : String) : String := String.mk (trimChars s.data)

/-- JavaScript truthiness of a string: `!s` is true exactly for `""`. -/
def strTruthy (s : String) : Bool := !s.data.isEmpty

/-- Value of a decimal digit character, `none` for any other character. -/
def decDigit (c : Char) : Option Nat :=
  if 48 ≤ c.toNat ∧ c.toNat ≤ 57 then some (c.toNat - 48) else none

/-- Value of a hexadecimal digit character, `none` for any other character. -/
def hexDigit (c : Char) : Option Nat :=
  if 48 ≤ c.toNat ∧ c.toNat ≤ 57 then some (c.toNat - 48)
  else if 97 ≤ c.toNat ∧ c.toNat ≤ 102 then some (c.toNat - 87)
  else if 65 ≤ c.toNat ∧ c.toNat ≤ 70 then some (c.toNat - 55)
  else none

/-- Longest leading run of digits (as read by `digit`), accumulated in the
given radix. Returns the number of digits read and their value. -/
def readDigits (digit : Char → Option Nat) (radix : Nat) :
    List Char → Nat × Nat → Nat × Nat
  | [], acc => acc
  | c :: cs, (count, value) =>
    match digit c with
    | some d => readDigits digit radix cs (count + 1, value * radix + d)
    | none => (count, value)

/-- Whether the text starts with `0x` or `0X`. -/
def startsWithHexMarker : List Char → Bool
  | c0 :: c1 :: _ => c0.toNat == 48 && (c1.toNat == 120 || c1.toNat == 88)
  | _ => false

/-- The steps of `parseInt(string)` with no radix argument that follow the
removal of the sign: a leading `0x` or `0X` is skipped and selects radix 16,
otherwise the radix is 10; no digit at all is `NaN` (`none`). -/
def parseIntUnsigned (cs : List Char) : Option Nat :=
  let r := if startsWithHexMarker cs then readDigits hexDigit 16 (cs.drop 2) (0, 0)
           else readDigits decDigit 10 cs (0, 0)
  if r.1 == 0 then none else some r.2

/-- JavaScript `parseInt(s)` (no radix): skip leading whitespace, read an
optional sign, then the longest run of digits; `none` stands for `NaN`. -/
def parseIntChars (cs : List Char) : Option Int :=
  match cs.dropWhile isJsWhitespace with
  | [] => none
  | c :: rest =>
    if c.toNat == 45 then (parseIntUnsigned rest).map (fun n => - (n : Int))
    else if c.toNat == 43 then (parseIntUnsigned rest).map (fun n => (n : Int))
    else (parseIntUnsigned (c :: rest)).map (fun n => (n : Int))

/-- JavaScript `parseInt(s)`; `isNaN(parseInt(s))` is `(parseInt s).isNone`. -/
def parseInt (s : String) : Option Int := parseIntChars s.data

/-- JavaScript `xs.slice(start, end)` on an array, negative indices counted
from the end as in `Array.prototype.slice`. -/
def jsSlice {α : Type} (xs : List α) (start stop : Int) : List α :=
  let len : Int := xs.length
  let k : Int := if start < 0 then max (len + start) 0 else min start len
  let fin : Int := if stop < 0 then max (len + stop) 0 else min stop len
  (xs.drop k.toNat).take (fin - k).toNat

/-! ## Pagination arithmetic of `fetchBooks` -/

/-- Local page size: `const perPage = 10`. -/
def perPage : Int := 10

/-- Upstream page of a local page:
`Math.floor(((page - 1) * perPage) / 100) + 1`. -/
def apiPage (page : Int) : Int := Int.fdiv ((page - 1) * perPage) 100 + 1

/-- Offset inside the upstream page: `((page - 1) * perPage) % 100`, with the
JavaScript remainder (sign of the dividend). -/
def startIndex (page : Int) : Int := Int.tmod ((page - 1) * perPage) 100

/-! ## Data model -/

/-- An element of a record's `authors` array. -/
structure Author where
  name : Option String
deriving DecidableEq, Repr

/-- A JavaScript value that is a number or a string (the bookmark entry's
`year` field). -/
inductive NumOrStr where
  | num (n : Int)
  | str (s : String)
deriving DecidableEq, Repr

/-- A book record as the component reads it: a raw search or trending record
(`author_name`, `authors`, `first_publish_year`, `first_publish_date`,
`cover_i`, `cover_id`, `edition_key`) or a bookmark entry (`author`, `year`,
`cover_i`, `edition_key`). `toggleBookmark` and `imgSrc` are applied to
both. -/
structure Book where
  key : String
  title : Option String
  author_name : Option (List String)
  authors : Option (List Author)
  first_publish_year : Option Int
  first_publish_date : Option String
  cover_i : Option Int
  cover_id : Option Int
  edition_key : Option (List String)
  author : Option String
  year : Option NumOrStr
deriving DecidableEq, Repr

/-- The value of `x || ...` when `x` is a number or `undefined`: `some n` when
`x` is truthy (a number other than 0). -/
def truthyNum : Option Int → Option Int
  | some n => if n != 0 then some n else none
  | none => none

/-- The value of `x || ...` when `x` is a string or `undefined`: `some s` when
`x` is truthy (a non-empty string). -/
def truthyStr : Option String → Option String
  | some s => if strTruthy s then some s else none
  | none => none

/-- The bookmark store, a JavaScript object used as a map from `book.key` to
the bookmark entry; own properties in insertion order. Keys are catalog keys
such as `/works/OL1W`, none of which names a property that objects inherit,
so `store[key]` reads an own property. -/
abbrev Store := List (String × Book)

/-- Property read `store[key]`. -/
def Store.get (store : Store) (key : String) : Option Book :=
  (store.find? (fun p => p.1 == key)).map Prod.snd

/-- Operation `delete store[key]`. -/
def Store.delete (store : Store) (key : String) : Store :=
  store.filter (fun p => p.1 != key)

/-- Assignment `store[key] = value`: an existing property keeps its place, a
new one is added last. -/
def Store.set (store : Store) (key : String) (value : Book) : Store :=
  if store.any (fun p => p.1 == key) then
    store.map (fun p => if p.1 == key then (key, value) else p)
  else store ++ [(key, value)]

/-- Result of `Object.keys(store)`. -/
def Store.keys (store : Store) : List String := store.map Prod.fst

/-- The React state of `BookFinderApp`, one field per `useState`. -/
structure State where
  darkMode : Bool
  searchType : String
  queryInput : String
  activeQuery : String
  books : List Book
  page : Int
  numFound : Int
  loading : Bool
  titleInput : String
  authorInput : String
  yearInput : String
  showBookmarks : Bool
  bookmarks : Store
  trending : List Book
  trendingTab : String
  trendingLoading : Bool
  selectedBook : Option Book
deriving DecidableEq, Repr

/-- The state after the first render: the initial value of every `useState`,
with the bookmarks read from storage. -/
def initialState (bookmarks : Store) : State :=
  { darkMode := false, searchType := "title", queryInput := "", activeQuery := "",
    books := [], page := 1, numFound := 0, loading := false, titleInput := "",
    authorInput := "", yearInput := "", showBookmarks := false,
    bookmarks := bookmarks, trending := [], trendingTab := "daily",
    trendingLoading := false, selectedBook := none }

/-- What a handler does besides updating the state. -/
inductive Effect where
  | toastError (msg : String)
  | fetch (url : String)
  | consoleError
deriving DecidableEq, Repr

/-- The outcome of running a handler: the state after its updates and the
effects it performed, in order. -/
structure Run where
  state : State
  effects : List Effect
deriving DecidableEq, Repr

/-! ## Cover image and author resolution -/

def PLACEHOLDER_S : String := "https://via.placeholder.com/80x120?text=No+Cover"
def PLACEHOLDER_M : String := "https://via.placeholder.com/150x220?text=No+Cover"
def PLACEHOLDER_L : String := "https://via.placeholder.com/200x300?text=No+Cover"

/-- The function `imgSrc(book, size)` (lines 47 to 55); the caller passes the
size, whose default in the source is `"M"`. -/
def imgSrc (book : Book) (size : String) : String :=
  match truthyNum book.cover_i with
  | some c => "https://covers.openlibrary.org/b/id/" ++ toString c ++ "-" ++ size ++ ".jpg"
  | none =>
    match truthyNum book.cover_id with
    | some c => "https://covers.openlibrary.org/b/id/" ++ toString c ++ "-" ++ size ++ ".jpg"
    | none =>
      match book.edition_key with
      | some (e :: _) => "https://covers.openlibrary.org/b/olid/" ++ e ++ "-" ++ size ++ ".jpg"
      | _ => if size == "L" then PLACEHOLDER_L else PLACEHOLDER_M

/-- The author line of a book card (lines 400 to 402 and 489 to 491):
`book.author_name?.[0] || book.authors?.[0]?.name || "Unknown Author"`. -/
def cardAuthor (book : Book) : String :=
  match truthyStr (book.author_name.bind List.head?) with
  | some a => a
  | none =>
    match truthyStr ((book.authors.bind List.head?).bind Author.name) with
    | some a => a
    | none => "Unknown Author"

/-! ## Bookmarks -/

/-- The object literal that `toggleBookmark` stores for `book` (lines 205 to
215). -/
def bookmarkEntry (book : Book) : Book :=
  { key := book.key,
    title := book.title,
    author := some (
      match truthyStr (book.author_name.bind List.head?) with
      | some a => a
      | none =>
        match truthyStr ((book.authors.bind List.head?).bind Author.name) with
        | some a => a
        | none => "Unknown Author"),
    year := some (
      match truthyNum book.first_publish_year with
      | some y => NumOrStr.num y
      | none =>
        match truthyStr book.first_publish_date with
        | some d => NumOrStr.str d
        | none => NumOrStr.str "N/A"),
    cover_i := (match truthyNum book.cover_i with
      | some c => some c
      | none => book.cover_id),
    edition_key := book.edition_key,
    author_name := none, authors := none, first_publish_year := none,
    first_publish_date := none, cover_id := none }

/-- The updater that `toggleBookmark(book)` passes to `setBookmarks` (lines
198 to 219): `prev` is copied, and the entry under `book.key` is deleted when
there is one (an entry is an object, hence truthy) and created otherwise. -/
def toggleBookmark (book : Book) (prev : Store) : Store :=
  let key := book.key
  let next := prev
  if (next.get key).isSome then next.delete key
  else next.set key (bookmarkEntry book)

/-! ## Search: `fetchBooks` -/

/-- What `JSON.parse` returns for the active query of the `all` mode, as far
as `fetchBooks` reads it: `null`, or a value with the properties `title`,
`author` and `year` (already converted to strings, `none` when absent). -/
inductive ParsedQuery where
  | null
  | value (title author year : Option String)
deriving DecidableEq, Repr

/-- The library functions that `fetchBooks` and `handleSearch` call and this
repository does not define. -/
structure Builtins where
  /-- The function `encodeURIComponent`. -/
  encodeURIComponent : String → String
  /-- The function `JSON.parse`; `none` when it throws. -/
  jsonParse : String → Option ParsedQuery
  /-- The call `JSON.stringify(\x7b title, author, year \x7d)`. -/
  jsonStringify : String → String → String → String

/-- The body that `res.json()` yields for a search request. -/
structure SearchData where
  docs : Option (List Book)
  numFound : Option Int
deriving DecidableEq, Repr

/-- Outcome of `await fetch(url)` followed by `await res.json()`. -/
inductive Reply where
  /-- One of the two promises rejects. -/
  | failure
  /-- The body is the JSON value `null`. -/
  | null
  /-- The body is a JSON value with the properties read. -/
  | json (data : SearchData)
deriving DecidableEq, Repr

/-- How the first half of the `try` block of `fetchBooks` ends (lines 103 to
133). -/
inductive Request where
  /-- The variable `url` has been assigned. -/
  | url (u : String)
  /-- The guard `isNaN(year)` fired. -/
  | invalidYear
  /-- An exception was thrown (a property of `null` was read). -/
  | threw
deriving DecidableEq, Repr

/-- The argument of `encodeURIComponent` converted to a string. -/
def argString : Option String → String
  | some s => s
  | none => "undefined"

/-- Lines 103 to 133 of `fetchBooks`: the URL of the request, per search
mode. -/
def buildRequest (js : Builtins) (s : State) : Request :=
  let apiPage := apiPage s.page
  if s.searchType == "all" then
    match js.jsonParse s.activeQuery with
    | some ParsedQuery.null => Request.threw
    | parsed =>
      let (title, author, year) := match parsed with
        | some (ParsedQuery.value t a y) => (t, a, y)
        | _ => (none, none, none)
      Request.url ("https://openlibrary.org/search.json?title="
        ++ js.encodeURIComponent (argString title)
        ++ "&author=" ++ js.encodeURIComponent (argString author)
        ++ "&first_publish_year=" ++ js.encodeURIComponent (argString year)
        ++ "&page=" ++ toString apiPage)
  else if s.searchType == "first_publish_year" then
    match parseInt (jsTrim s.activeQuery) with
    | none => Request.invalidYear
    | some year =>
      Request.url ("https://openlibrary.org/search.json?q=first_publish_year:"
        ++ toString year ++ "&page=" ++ toString apiPage)
  else
    Request.url ("https://openlibrary.org/search.json?" ++ s.searchType ++ "="
      ++ js.encodeURIComponent (jsTrim s.activeQuery) ++ "&page=" ++ toString apiPage)

/-- The comparison `book.first_publish_year === year`, where `year` is the
result of `parseInt` (`none` is `NaN`, equal to nothing). -/
def yearMatches (year : Option Int) (book : Book) : Bool :=
  match year, book.first_publish_year with
  | some y, some v => v == y
  | _, _ => false

/-- Lines 138 to 144 of `fetchBooks`: the items stored for the response
`data`. -/
def pageOfResponse (s : State) (data : SearchData) : List Book :=
  let startIndex := startIndex s.page
  let results := data.docs.getD []
  let results :=
    if s.searchType == "first_publish_year" then
      let year := parseInt (jsTrim s.activeQuery)
      results.filter (yearMatches year)
    else results
  jsSlice results startIndex (startIndex + perPage)

/-- The function `fetchBooks` (lines 98 to 154), run to completion on the
state it closes over, against the network `net`. -/
def fetchBooks (js : Builtins) (net : String → Reply) (s : State) : Run :=
  if !strTruthy (jsTrim s.activeQuery) then ⟨s, []⟩
  else
    match buildRequest js s with
    | Request.invalidYear =>
      ⟨{ s with books := [], numFound := 0, loading := false },
        [Effect.toastError "❌ Enter a valid year!"]⟩
    | Request.threw =>
      ⟨{ s with loading := false },
        [Effect.toastError "🚨 Something went wrong while fetching books.",
          Effect.consoleError]⟩
    | Request.url u =>
      match net u with
      | Reply.json data =>
        ⟨{ s with books := pageOfResponse s data, numFound := data.numFound.getD 0,
                  loading := false },
          [Effect.fetch u]⟩
      | _ =>
        ⟨{ s with loading := false },
          [Effect.fetch u,
            Effect.toastError "🚨 Something went wrong while fetching books.",
            Effect.consoleError]⟩

/-! ## The query controller -/

/-- The effect of lines 156 to 166 runs after a render in which `page`,
`activeQuery` or `searchType` changed, and calls `fetchBooks` when the active
query (always a string) is not blank. -/
def fetchTriggered (before after : State) : Bool :=
  (before.page != after.page || before.activeQuery != after.activeQuery
    || before.searchType != after.searchType)
  && strTruthy (jsTrim after.activeQuery)

/-- The handler `handleSearch` (lines 173 to 196), after
`e.preventDefault()`, which touches no state. -/
def handleSearch (js : Builtins) (s : State) : Run :=
  if s.searchType == "all" then
    if !strTruthy (jsTrim s.titleInput) || !strTruthy (jsTrim s.authorInput)
        || !strTruthy (jsTrim s.yearInput) then
      ⟨s, [Effect.toastError "❌ Fill all fields for 'Search by All'"]⟩
    else
      ⟨{ s with page := 1,
                activeQuery := js.jsonStringify (jsTrim s.titleInput)
                  (jsTrim s.authorInput) (jsTrim s.yearInput) }, []⟩
  else
    if !strTruthy (jsTrim s.queryInput) then
      ⟨s, [Effect.toastError "❌ Invalid input! Please enter a search term."]⟩
    else
      ⟨{ s with page := 1, activeQuery := jsTrim s.queryInput }, []⟩

/-- The `onChange` handler of the search-mode `select` (lines 249 to 257);
`value` is `e.target.value`. -/
def changeMode (value : String) (s : State) : State :=
  { s with searchType := value, page := 1, queryInput := "", titleInput := "",
           authorInput := "", yearInput := "", activeQuery := "" }

/-- The handler `goBackToTrending` (lines 87 to 96). -/
def goBackToTrending (s : State) : State :=
  { s with books := [], activeQuery := "", page := 1, queryInput := "",
           titleInput := "", authorInput := "", yearInput := "",
           searchType := "title" }

/-- The condition under which the trending section is rendered (line 342):
`!loading && books.length === 0`. -/
def showsTrending (s : State) : Bool := !s.loading && s.books.length == 0

/-! ## Trending: `fetchTrending` -/

/-- The body that `res.json()` yields for a trending request, as far as
`fetchTrending` reads it. -/
structure TrendingData where
  works : Option (List Book)
deriving DecidableEq, Repr

/-- Outcome of `await fetch(url)` followed by `await res.json()` for a
trending request. -/
inductive TrendingReply where
  /-- One of the two promises rejects: transport failure, or a response that
  cannot be read as JSON. -/
  | failure
  /-- The body is the JSON value `null`. -/
  | null
  /-- The body is a JSON value with the property read. -/
  | json (data : TrendingData)
deriving DecidableEq, Repr

/-- The URL that `fetchTrending(type)` requests. -/
def trendingUrl (type : String) : String :=
  "https://openlibrary.org/trending/" ++ type ++ ".json"

/-- The function `fetchTrending(type)` (lines 65 to 76), run to completion
against the network `net`: the list is set from `(data?.works || []).slice(0,
10)`; the `catch` block only logs; `finally` clears the loading flag. -/
def fetchTrending (net : String → TrendingReply) (type : String) (s : State) : Run :=
  match net (trendingUrl type) with
  | TrendingReply.json data =>
    ⟨{ s with trending := jsSlice (data.works.getD []) 0 10, trendingLoading := false },
      [Effect.fetch (trendingUrl type)]⟩
  | TrendingReply.null =>
    ⟨{ s with trending := jsSlice [] 0 10, trendingLoading := false },
      [Effect.fetch (trendingUrl type)]⟩
  | TrendingReply.failure =>
    ⟨{ s with trendingLoading := false },
      [Effect.fetch (trendingUrl type), Effect.consoleError]⟩

/-! ## Bookmarks read at start-up -/

/-- A JavaScript value as `JSON.parse` produces it. A number is given by its
value, a rational. -/
inductive Json where
  | null
  | bool (b : Bool)
  | num (q : Rat)
  | str (s : String)
  | arr (items : List Json)
  | obj (fields : List (String × Json))

/-- JavaScript truthiness of a parsed value: the operand test of `v || ...`. -/
def Json.truthy : Json → Bool
  | Json.null => false
  | Json.bool b => b
  | Json.num q => q != 0
  | Json.str s => strTruthy s
  | Json.arr _ => true
  | Json.obj _ => true

/-- Outcome of `localStorage.getItem("bookmarks")`. -/
inductive StorageItem where
  /-- The call throws (storage is not accessible). -/
  | throws
  /-- There is no such entry: the call returns `null`. -/
  | absent
  /-- The entry holds this text. -/
  | text (content : String)
deriving DecidableEq, Repr

/-- The initializer of the `bookmarks` state (lines 26 to 32): inside `try`,
the value of `JSON.parse(localStorage.getItem("bookmarks"))` or, when that
value is falsy, the empty object; from `catch`, the empty object. The argument
`parse` is `JSON.parse` (`none` when it throws), which converts the `null` of
an absent entry to the text `null`. The result is what the state holds:
`Json.obj []` is the empty map. -/
def initialBookmarks (parse : String → Option Json) (item : StorageItem) : Json :=
  match item with
  | StorageItem.throws => Json.obj []
  | StorageItem.absent =>
    match parse "null" with
    | some v => if v.truthy then v else Json.obj []
    | none => Json.obj []
  | StorageItem.text content =>
    match parse content with
    | some v => if v.truthy then v else Json.obj []
    | none => Json.obj []

/-! ## Runs of `fetchBooks` that store a page -/

/-- A successful run of `fetchBooks`: the active query is not blank, the URL
`u` is built, and the network answers `u` with the JSON body `data`. -/
def Succeeds (js : Builtins) (net : String → Reply) (s : State) (u : String)
    (data : SearchData) : Prop :=
  strTruthy (jsTrim s.activeQuery) = true ∧ buildRequest js s = Request.url u
    ∧ net u = Reply.json data

/-! ## Concrete records, states and networks used in the examples -/

/-- A record that has the given key and no other property. -/
def bareBook (key : String) : Book :=
  { key := key, title := none, author_name := none, authors := none,
    first_publish_year := none, first_publish_date := none, cover_i := none,
    cover_id := none, edition_key := none, author := none, year := none }

/-- Library functions for the examples, right on the strings of unreserved
characters that the examples pass: `encodeURIComponent` returns such a string
unchanged and `JSON.stringify` quotes it without escapes. No example reaches
`JSON.parse`, which is left as the function that always throws. -/
def exampleBuiltins : Builtins :=
  { encodeURIComponent := fun s => s,
    jsonParse := fun _ => none,
    jsonStringify := fun t a y =>
      "\x7b\"title\":\"" ++ t ++ "\",\"author\":\"" ++ a ++ "\",\"year\":\"" ++ y
        ++ "\"\x7d" }

def book1999 : Book := { bareBook "/works/OL1W" with first_publish_year := some 1999 }

def book2000 : Book := { bareBook "/works/OL2W" with first_publish_year := some 2000 }

/-- An upstream response with mixed publication years. -/
def yearData : SearchData := { docs := some [book1999, book2000], numFound := some 2 }

def yearNet : String → Reply := fun _ => Reply.json yearData

/-- Year mode, active query `2000`, first page. -/
def yearState : State :=
  { initialState [] with searchType := "first_publish_year", activeQuery := "2000" }

/-- A full upstream page: 100 records with distinct keys. -/
def docs100 : List Book :=
  (List.range 100).map (fun i => bareBook ("/works/OL" ++ toString i ++ "W"))

def titleData : SearchData := { docs := some docs100, numFound := some 1200 }

def titleNet : String → Reply := fun _ => Reply.json titleData

/-- Title mode, active query `dune`, local page 12. -/
def titleState : State :=
  { initialState [] with searchType := "title", activeQuery := "dune", page := 12 }

/-- Year mode with the active query `1999abc`, which is not an integer but
starts with one. -/
def prefixYearState : State :=
  { initialState [] with searchType := "first_publish_year", activeQuery := "1999abc" }

/-- Year mode with the active query `abc`, while an earlier result is
displayed. -/
def wordYearState : State :=
  { initialState [] with searchType := "first_publish_year", activeQuery := "abc",
                         books := [book2000], numFound := 25 }

/-- A stored bookmark entry for `/works/OL1W`, taken when the record had
another title. -/
def oldEntry : Book :=
  bookmarkEntry { bareBook "/works/OL1W" with title := some "Dune (first edition)" }

/-- The record `/works/OL1W` as the catalog returns it now. -/
def newBook : Book := { bareBook "/works/OL1W" with title := some "Dune" }

/-- Mode `all` with the author field left empty. -/
def allModeState : State :=
  { initialState [] with searchType := "all", titleInput := "Dune", authorInput := "",
                         yearInput := "1965" }

/-- Title mode, page 2 of the results for `dune` on display. -/
def resultsState : State :=
  { initialState [] with searchType := "title", queryInput := "dune",
                         activeQuery := "dune", books := [book2000], numFound := 25,
                         page := 2 }

/-- A record whose author fields are all missing: `author_name` is empty and
the only element of `authors` has no name. -/
def authorlessBook : Book :=
  { bareBook "/works/OL1W" with title := some "Beowulf", author_name := some [],
                                authors := some [{ name := none }] }

/-- The trending view with a daily list on display, the weekly tab just
selected. -/
def trendingState : State :=
  { initialState [] with trending := [book1999, book2000], trendingTab := "weekly",
                         trendingLoading := true }

/-- A network whose every trending request fails. -/
def failingNet : String → TrendingReply := fun _ => TrendingReply.failure

/-- The function `JSON.parse` on the texts that the examples store: `null`,
`0` and `[1]` are JSON, `not json` is not and makes it throw. No example
passes another text, all of which are treated like `not json`. -/
def exampleParse (text : String) : Option Json :=
  if text = "null" then some Json.null
  else if text = "0" then some (Json.num 0)
  else if text = "[1]" then some (Json.arr [Json.num 1])
  else none

/-- A result list of the catalog with 250 items, each named by its position. -/
def positions250 : List Nat := List.range 250

/-! ## Notions the claims are stated with -/

/-- Empty or only whitespace: every character is removed by `trim()`. -/
def isBlank (s : String) : Bool := s.data.all isJsWhitespace

/-- An integer as a year input is usually understood: the trimmed text is an
optional sign followed by one or more decimal digits and nothing else. -/
def isIntegerText (s : String) : Bool :=
  match trimChars s.data with
  | [] => false
  | c :: rest =>
    let digits := if c.toNat == 45 || c.toNat == 43 then rest else c :: rest
    !digits.isEmpty && digits.all (fun d => (decDigit d).isSome)

/-- The serialization of a bookmark store parses to a map from item id to
bookmark record: an object whose every value is an object. -/
def isBookmarkMap : Json → Bool
  | Json.obj fields =>
    fields.all (fun p => match p.2 with
      | Json.obj _ => true
      | _ => false)
  | _ => false

/-! # Properties -/

/-! ## Auxiliary facts -/

theorem jsSlice_natCast {α : Type} (xs : List α) (k n : Nat) :
    jsSlice xs (k : Int) ((k : Int) + (n : Int)) = (xs.drop k).take n := by
  unfold jsSlice
  have h1 : ¬ ((k : Int) < 0) := by omega
  have h2 : ¬ ((k : Int) + (n : Int) < 0) := by omega
  simp only [h1, h2, if_false]
  rcases Nat.lt_or_ge xs.length k with hk | hk
  · have e1 : (min (k : Int) (xs.length : Int)).toNat = xs.length := by omega
    rw [e1, List.drop_of_length_le (Nat.le_refl _), List.drop_of_length_le (Nat.le_of_lt hk)]
    simp
  · have e1 : (min (k : Int) (xs.length : Int)).toNat = k := by omega
    have e2 : (min ((k : Int) + (n : Int)) (xs.length : Int)
        - min (k : Int) (xs.length : Int)).toNat = min n (xs.length - k) := by omega
    rw [e1, e2, List.take_eq_take]
    simp [List.length_drop]

theorem jsSlice_sublist {α : Type} (xs : List α) (a b : Int) :
    List.Sublist (jsSlice xs a b) xs := by
  unfold jsSlice
  exact (List.take_sublist _ _).trans (List.drop_sublist _ _)

theorem startIndex_eq_toNat (p : Int) (hp : 1 ≤ p) :
    startIndex p = ((((p - 1) * 10) % 100).toNat : Int) := by
  have h0 : 0 ≤ (p - 1) * 10 := by omega
  unfold startIndex perPage
  rw [Int.tmod_eq_emod h0 (by norm_num)]
  omega

theorem yearMatches_iff (y : Int) (b : Book) :
    yearMatches (some y) b = true ↔ b.first_publish_year = some y := by
  unfold yearMatches
  cases h : b.first_publish_year <;> simp

theorem fetchBooks_of_succeeds (js : Builtins) (net : String → Reply) (s : State)
    (u : String) (data : SearchData) (hok : Succeeds js net s u data) :
    fetchBooks js net s =
      ⟨{ s with books := pageOfResponse s data, numFound := data.numFound.getD 0,
                loading := false }, [Effect.fetch u]⟩ := by
  obtain ⟨h1, h2, h3⟩ := hok
  unfold fetchBooks
  simp [h1, h2, h3]

theorem pageOfResponse_eq (s : State) (data : SearchData) (hp : 1 ≤ s.page) :
    pageOfResponse s data =
      ((if s.searchType = "first_publish_year" then
          (data.docs.getD []).filter (yearMatches (parseInt (jsTrim s.activeQuery)))
        else data.docs.getD []).drop (((s.page - 1) * 10) % 100).toNat).take 10 := by
  unfold pageOfResponse
  simp only []
  rw [startIndex_eq_toNat s.page hp]
  have hten : perPage = ((10 : Nat) : Int) := rfl
  rw [hten, jsSlice_natCast]
  simp

theorem Store.get_nil (k : String) : Store.get [] k = none := rfl

theorem Store.get_cons (p : String × Book) (s : Store) (k : String) :
    Store.get (p :: s) k = if p.1 = k then some p.2 else Store.get s k := by
  unfold Store.get
  by_cases h : p.1 = k <;> simp [List.find?_cons, h]

theorem Store.get_delete_self (s : Store) (k : String) : (s.delete k).get k = none := by
  induction s with
  | nil => rfl
  | cons p s ih =>
    unfold Store.delete at ih ⊢
    by_cases h : p.1 = k
    · simpa [List.filter_cons, h] using ih
    · simpa [List.filter_cons, h, Store.get_cons] using ih

theorem Store.get_delete_ne (s : Store) (k k' : String) (hne : k' ≠ k) :
    (s.delete k).get k' = s.get k' := by
  induction s with
  | nil => rfl
  | cons p s ih =>
    unfold Store.delete at ih ⊢
    rw [List.filter_cons, Store.get_cons]
    by_cases h : p.1 = k
    · have h' : ¬ p.1 = k' := fun e => hne (e.symm.trans h)
      have hb : (p.1 != k) = false := by simp [h]
      rw [hb, if_neg h']
      simpa using ih
    · have hb : (p.1 != k) = true := by simp [h]
      rw [hb]
      simp only [if_true]
      rw [Store.get_cons, ih]

theorem Store.get_append_single (s : Store) (k k' : String) (v : Book) :
    Store.get (s ++ [(k, v)]) k' =
      match s.get k' with
      | some e => some e
      | none => if k = k' then some v else none := by
  induction s with
  | nil => simp [Store.get_cons, Store.get_nil]
  | cons p s ih =>
    rw [List.cons_append, Store.get_cons, Store.get_cons]
    by_cases hp : p.1 = k'
    · simp [hp]
    · simp only [hp, if_false]
      exact ih

theorem Store.set_of_get_none (s : Store) (k : String) (v : Book) (h : s.get k = none) :
    s.set k v = s ++ [(k, v)] := by
  have hany : s.any (fun p => p.1 == k) = false := by
    induction s with
    | nil => rfl
    | cons p s ih =>
      rw [Store.get_cons] at h
      by_cases hp : p.1 = k
      · simp [hp] at h
      · simp only [hp, if_false] at h
        simp [List.any_cons, hp, ih h]
  unfold Store.set
  simp [hany]

theorem toggleBookmark_present (b : Book) (s : Store) (h : (s.get b.key).isSome = true) :
    toggleBookmark b s = s.delete b.key := by
  unfold toggleBookmark
  simp [h]

theorem toggleBookmark_absent (b : Book) (s : Store) (h : s.get b.key = none) :
    toggleBookmark b s = s ++ [(b.key, bookmarkEntry b)] := by
  unfold toggleBookmark
  simp [h, Store.set_of_get_none s b.key _ h]

/-- The entry found under `k` after toggling `b` twice. -/
theorem toggleBookmark_twice_get (b : Book) (s : Store) (k : String) :
    (toggleBookmark b (toggleBookmark b s)).get k =
      if k = b.key then (s.get b.key).map (fun _ => bookmarkEntry b) else s.get k := by
  cases hs : s.get b.key with
  | none =>
    have h1 : toggleBookmark b s = s ++ [(b.key, bookmarkEntry b)] :=
      toggleBookmark_absent b s hs
    have hg : (Store.get (s ++ [(b.key, bookmarkEntry b)]) b.key).isSome = true := by
      rw [Store.get_append_single, hs]; simp
    rw [h1, toggleBookmark_present b _ hg]
    by_cases hk : k = b.key
    · subst hk
      simp [Store.get_delete_self]
    · rw [Store.get_delete_ne _ _ _ hk, Store.get_append_single, if_neg hk]
      have hk' : ¬ b.key = k := fun e => hk e.symm
      cases hsk : s.get k <;> simp [hk']
  | some e =>
    have h1 : toggleBookmark b s = s.delete b.key :=
      toggleBookmark_present b s (by simp [hs])
    rw [h1, toggleBookmark_absent b _ (Store.get_delete_self s b.key), Store.get_append_single]
    by_cases hk : k = b.key
    · subst hk
      simp [Store.get_delete_self]
    · rw [Store.get_delete_ne _ _ _ hk, if_neg hk]
      have hk' : ¬ b.key = k := fun e => hk e.symm
      cases hsk : s.get k <;> simp [hk']

theorem trimChars_of_all (cs : List Char) (h : cs.all isJsWhitespace = true) :
    trimChars cs = [] := by
  have h1 : cs.dropWhile isJsWhitespace = [] := by
    rw [List.dropWhile_eq_nil_iff]
    intro x hx
    exact List.all_eq_true.1 h x hx
  unfold trimChars
  rw [h1]
  rfl

theorem strTruthy_jsTrim_of_isBlank (x : String) (h : isBlank x = true) :
    strTruthy (jsTrim x) = false := by
  unfold strTruthy jsTrim
  rw [trimChars_of_all x.data h]
  rfl

theorem fetchTriggered_self (s : State) : fetchTriggered s s = false := by
  unfold fetchTriggered
  simp

/-- The function `imgSrc` on a record without cover reference. -/
theorem imgSrc_of_no_cover (b : Book) (size : String) (hi : b.cover_i = none)
    (hid : b.cover_id = none) (he : b.edition_key = none ∨ b.edition_key = some []) :
    imgSrc b size = if size == "L" then PLACEHOLDER_L else PLACEHOLDER_M := by
  unfold imgSrc
  rcases he with he | he <;> simp [hi, hid, he, truthyNum]

theorem decDigit_isSome_iff (d : Char) :
    (decDigit d).isSome = true ↔ 48 ≤ d.toNat ∧ d.toNat ≤ 57 := by
  unfold decDigit
  by_cases h : 48 ≤ d.toNat ∧ d.toNat ≤ 57 <;> simp [h]

theorem isJsWhitespace_eq_false_of_range (c : Char) (h : 33 ≤ c.toNat ∧ c.toNat ≤ 126) :
    isJsWhitespace c = false := by
  unfold isJsWhitespace
  simp only [Bool.or_eq_false_iff, beq_eq_false_iff_ne, ne_eq, Bool.and_eq_false_iff,
    decide_eq_false_iff_not]
  omega

theorem readDigits_count_le (digit : Char → Option Nat) (radix : Nat) (cs : List Char)
    (n v : Nat) : n ≤ (readDigits digit radix cs (n, v)).1 := by
  induction cs generalizing n v with
  | nil => exact Nat.le_refl _
  | cons c cs ih =>
    unfold readDigits
    cases hd : digit c with
    | none => exact Nat.le_refl _
    | some d => exact Nat.le_trans (Nat.le_succ n) (ih (n + 1) (v * radix + d))

theorem parseIntUnsigned_isSome_of_digits (ds : List Char) (hne : ds ≠ [])
    (hall : ∀ d ∈ ds, (decDigit d).isSome = true) :
    (parseIntUnsigned ds).isSome = true := by
  match ds, hne, hall with
  | d :: rest, _, hall =>
    have hd := (decDigit_isSome_iff d).1 (hall d (List.mem_cons_self _ _))
    have hhex : startsWithHexMarker (d :: rest) = false := by
      cases rest with
      | nil => rfl
      | cons c1 tl =>
        have h1 := (decDigit_isSome_iff c1).1
          (hall c1 (List.mem_cons_of_mem _ (List.mem_cons_self _ _)))
        have e1 : (c1.toNat == 120) = false := beq_eq_false_iff_ne.2 (by omega)
        have e2 : (c1.toNat == 88) = false := beq_eq_false_iff_ne.2 (by omega)
        simp [startsWithHexMarker, e1, e2]
    obtain ⟨v, hv⟩ := Option.isSome_iff_exists.1 (hall d (List.mem_cons_self _ _))
    have hcount : 1 ≤ (readDigits decDigit 10 (d :: rest) (0, 0)).1 := by
      unfold readDigits
      rw [hv]
      exact readDigits_count_le decDigit 10 rest 1 _
    have hz : ((readDigits decDigit 10 (d :: rest) (0, 0)).1 == 0) = false :=
      beq_eq_false_iff_ne.2 (Nat.ne_of_gt hcount)
    unfold parseIntUnsigned
    simp only []
    rw [hhex]
    simp only [Bool.false_eq_true, if_false]
    rw [hz]
    rfl

/-- Every integer text is read as a number by `parseInt`. -/
theorem parseInt_isSome_of_isIntegerText (s : String) (h : isIntegerText s = true) :
    (parseInt (jsTrim s)).isSome = true := by
  have hp : parseInt (jsTrim s) = parseIntChars (trimChars s.data) := rfl
  rw [hp]
  unfold isIntegerText at h
  cases ht : trimChars s.data with
  | nil => rw [ht] at h; exact Bool.noConfusion h
  | cons c rest =>
    rw [ht] at h
    simp only [Bool.and_eq_true, Bool.not_eq_true', List.all_eq_true] at h
    obtain ⟨hne, hall⟩ := h
    by_cases hsign : (c.toNat == 45 || c.toNat == 43) = true
    · rw [if_pos hsign] at hne hall
      have hrange : 33 ≤ c.toNat ∧ c.toNat ≤ 126 := by
        simp at hsign; omega
      have hrest : rest ≠ [] := by
        intro e; rw [e] at hne; exact Bool.noConfusion hne
      have hu := parseIntUnsigned_isSome_of_digits rest hrest hall
      obtain ⟨n, hn⟩ := Option.isSome_iff_exists.1 hu
      unfold parseIntChars
      rw [List.dropWhile_cons_of_neg (by simp [isJsWhitespace_eq_false_of_range c hrange])]
      simp only [hn]
      by_cases h45 : (c.toNat == 45) = true
      · simp [h45]
      · have h43 : (c.toNat == 43) = true := by
          simp at hsign h45; simp; omega
        simp [h45, h43]
    · rw [if_neg hsign] at hne hall
      have hc := (decDigit_isSome_iff c).1 (hall c (List.mem_cons_self _ _))
      have hu := parseIntUnsigned_isSome_of_digits (c :: rest) (List.cons_ne_nil _ _) hall
      obtain ⟨n, hn⟩ := Option.isSome_iff_exists.1 hu
      unfold parseIntChars
      rw [List.dropWhile_cons_of_neg
        (by simp [isJsWhitespace_eq_false_of_range c (by omega)])]
      have h45 : (c.toNat == 45) = false := by simp; omega
      have h43 : (c.toNat == 43) = false := by simp; omega
      simp [h45, h43, hn]

theorem pagination_decompose (p : Int) (hp : 1 ≤ p) :
    ∃ a m : Nat, ((apiPage p - 1) * 100) = (a : Int) ∧ startIndex p = (m : Int)
      ∧ (p - 1) * 10 = ((a + m : Nat) : Int) ∧ m + 10 ≤ 100 := by
  have h0 : 0 ≤ (p - 1) * 10 := by omega
  have ha : apiPage p = ((p - 1) * 10) / 100 + 1 := by
    unfold apiPage perPage
    rw [Int.fdiv_eq_ediv _ (by norm_num : (0 : Int) ≤ 100)]
  have hs : startIndex p = ((p - 1) * 10) % 100 := by
    unfold startIndex perPage
    rw [Int.tmod_eq_emod h0 (by norm_num)]
  refine ⟨(((p - 1) * 10) / 100 * 100).toNat, (((p - 1) * 10) % 100).toNat, ?_, ?_, ?_, ?_⟩
  · rw [ha]; omega
  · rw [hs]; omega
  · omega
  · omega

theorem slice_of_upstream_page {α : Type} (all : List α) (a m : Nat) (hm : m + 10 ≤ 100) :
    jsSlice ((all.drop a).take 100) (m : Int) ((m : Int) + perPage)
      = (all.drop (a + m)).take 10 := by
  have hten : perPage = ((10 : Nat) : Int) := rfl
  rw [hten, jsSlice_natCast, List.drop_take, List.take_take, List.drop_drop]
  have : min 10 (100 - m) = 10 := by omega
  rw [this]

theorem truthyNum_some (n : Int) :
    truthyNum (some n) = if (n != 0) = true then some n else none := rfl

theorem truthyNum_truthyNum (x : Option Int) (c : Int) (h : truthyNum x = some c) :
    truthyNum (some c) = some c := by
  cases x with
  | none => exact Option.noConfusion h
  | some n =>
    rw [truthyNum_some] at h
    by_cases hn : (n != 0) = true
    · rw [if_pos hn] at h
      cases h
      rw [truthyNum_some, if_pos hn]
    · rw [if_neg hn] at h
      exact Option.noConfusion h

/-- The cover URL of the entry built from a book is that of the book. -/
theorem imgSrc_bookmarkEntry_eq (b : Book) (size : String) :
    imgSrc (bookmarkEntry b) size = imgSrc b size := by
  cases hi : truthyNum b.cover_i with
  | some c =>
    have h1 : truthyNum (bookmarkEntry b).cover_i = some c := by
      simp only [bookmarkEntry, hi]
      exact truthyNum_truthyNum _ c hi
    unfold imgSrc
    rw [h1, hi]
  | none =>
    have hcov : (bookmarkEntry b).cover_i = b.cover_id := by
      simp only [bookmarkEntry, hi]
    cases hid : truthyNum b.cover_id with
    | some c =>
      unfold imgSrc
      rw [hcov, hid, hi]
    | none =>
      have hid' : truthyNum (bookmarkEntry b).cover_id = none := rfl
      have hed : (bookmarkEntry b).edition_key = b.edition_key := rfl
      unfold imgSrc
      rw [hcov, hid, hid', hi, hed]

/-- A trending fetch that succeeds stores the first 10 works of the
response, in the response's order. -/
theorem fetchTrending_of_json (net : String → TrendingReply) (type : String) (s : State)
    (data : TrendingData) (h : net (trendingUrl type) = TrendingReply.json data) :
    (fetchTrending net type s).state.trending = (data.works.getD []).take 10 := by
  unfold fetchTrending
  rw [h]
  exact jsSlice_natCast (data.works.getD []) 0 10

theorem isBookmarkMap_truthy (v : Json) (h : isBookmarkMap v = true) : v.truthy = true := by
  cases v with
  | obj fields => rfl
  | null => exact Bool.noConfusion h
  | bool b => exact Bool.noConfusion h
  | num q => exact Bool.noConfusion h
  | str s => exact Bool.noConfusion h
  | arr items => exact Bool.noConfusion h

/-! ## Pagination -/

/-- C1. For every local page `p ≥ 1`, the upstream page computed by
`fetchBooks` is `floor(((p - 1) * 10) / 100) + 1` (as an integer quotient
and as the floor of the rational quotient), the offset is
`((p - 1) * 10) mod 100`, and the offset lies in `[0, 100)`. -/
theorem pagination_resolve (p : Int) (hp : 1 ≤ p) :
    apiPage p = ((p - 1) * 10) / 100 + 1
    ∧ apiPage p = ⌊(((p - 1) * 10 : Int) : ℚ) / 100⌋ + 1
    ∧ startIndex p = ((p - 1) * 10) % 100
    ∧ 0 ≤ startIndex p ∧ startIndex p < 100 := by
  have h0 : 0 ≤ (p - 1) * 10 := by omega
  have hq : ⌊(((p - 1) * 10 : Int) : ℚ) / 100⌋ = ((p - 1) * 10) / 100 := by
    have hfl := Rat.floor_intCast_div_natCast ((p - 1) * 10) 100
    simpa using hfl
  rw [hq]
  unfold apiPage startIndex perPage
  rw [Int.fdiv_eq_ediv _ (by norm_num : (0 : Int) ≤ 100), Int.tmod_eq_emod h0 (by norm_num)]
  omega

/-- C1 at local page 12: upstream page 2, offset 10. -/
theorem pagination_resolve_witness :
    (1 : Int) ≤ 12 ∧ apiPage 12 = 2 ∧ startIndex 12 = 10
    ∧ (0 : Int) ≤ startIndex 12 ∧ startIndex 12 < 100 :=
  ⟨by decide, by decide, by decide,
    (pagination_resolve 12 (by decide)).2.2.2.1, (pagination_resolve 12 (by decide)).2.2.2.2⟩

/-! ## The stored page -/

/-- C2, as stated, fails in year mode: with the response `[book1999,
book2000]` for the query `2000` on page 1, the run succeeds and stores
`[book2000]`, which is not the slice `[0, 10)` of the response's items. -/
theorem fetchBooks_year_page_is_not_response_slice :
    Succeeds exampleBuiltins yearNet yearState
        "https://openlibrary.org/search.json?q=first_publish_year:2000&page=1" yearData
    ∧ (fetchBooks exampleBuiltins yearNet yearState).state.books = [book2000]
    ∧ (fetchBooks exampleBuiltins yearNet yearState).state.books ≠
        ((yearData.docs.getD []).drop (((yearState.page - 1) * 10) % 100).toNat).take 10 :=
  ⟨⟨by decide, by decide, rfl⟩, by decide, by decide⟩

/-- C2, amended. For every local page `p ≥ 1` and every successful run of
`fetchBooks` on a response with item list `docs`: outside year mode the
stored page is exactly the slice `[startIndex, startIndex + 10)` of `docs`,
which is the remainder of `docs` (possibly empty) when `docs` has no more
than `startIndex + 10` items; in year mode it is that slice of the items of
`docs` whose `first_publish_year` equals the requested year; in every mode
the stored page has at most 10 items. -/
theorem fetchBooks_stores_slice (js : Builtins) (net : String → Reply) (s : State)
    (u : String) (data : SearchData) (hp : 1 ≤ s.page)
    (hok : Succeeds js net s u data) :
    (s.searchType ≠ "first_publish_year" →
      (fetchBooks js net s).state.books =
          ((data.docs.getD []).drop (((s.page - 1) * 10) % 100).toNat).take 10
      ∧ ((data.docs.getD []).length ≤ (((s.page - 1) * 10) % 100).toNat + 10 →
          (fetchBooks js net s).state.books =
            (data.docs.getD []).drop (((s.page - 1) * 10) % 100).toNat))
    ∧ (s.searchType = "first_publish_year" →
        ∃ y : Int, parseInt (jsTrim s.activeQuery) = some y
          ∧ (fetchBooks js net s).state.books =
            (((data.docs.getD []).filter (fun b => b.first_publish_year == some y)).drop
              (((s.page - 1) * 10) % 100).toNat).take 10)
    ∧ (fetchBooks js net s).state.books.length ≤ 10 := by
  rw [fetchBooks_of_succeeds js net s u data hok]
  simp only [pageOfResponse_eq s data hp]
  refine ⟨?_, ?_, ?_⟩
  · intro hmode
    rw [if_neg hmode]
    refine ⟨rfl, fun hlen => ?_⟩
    apply List.take_of_length_le
    rw [List.length_drop]
    omega
  · intro hmode
    obtain ⟨_, hreq, _⟩ := hok
    cases hy : parseInt (jsTrim s.activeQuery) with
    | none =>
      unfold buildRequest at hreq
      simp [hmode, hy] at hreq
    | some y =>
      refine ⟨y, rfl, ?_⟩
      rw [if_pos hmode]
      have hfilter : yearMatches (some y) = fun b => b.first_publish_year == some y := by
        funext b
        cases hb : yearMatches (some y) b
        · have hne : ¬ b.first_publish_year = some y := fun h =>
            by rw [(yearMatches_iff y b).2 h] at hb; exact Bool.noConfusion hb
          simp [hne]
        · simp [(yearMatches_iff y b).1 hb]
      rw [hfilter]
  · exact List.length_take_le _ _

/-- C2 at local page 12 in title mode with a full upstream page: the request
is for upstream page 2, the offset is 10, and the stored page is items
`[10, 20)` of the response. -/
theorem fetchBooks_stores_slice_witness :
    (1 : Int) ≤ titleState.page
    ∧ Succeeds exampleBuiltins titleNet titleState
        "https://openlibrary.org/search.json?title=dune&page=2" titleData
    ∧ apiPage titleState.page = 2 ∧ startIndex titleState.page = 10
    ∧ (fetchBooks exampleBuiltins titleNet titleState).state.books
        = (docs100.drop 10).take 10 :=
  ⟨by decide, ⟨by decide, by decide, rfl⟩, by decide, by decide,
    ((fetchBooks_stores_slice exampleBuiltins titleNet titleState
        "https://openlibrary.org/search.json?title=dune&page=2" titleData (by decide)
        ⟨by decide, by decide, rfl⟩).1 (by decide)).1⟩

/-- C3. In year mode with requested year `y`, every book stored by a
successful `fetchBooks` has `first_publish_year` equal to `y`, and the stored
books are items of the upstream response in the response's order. -/
theorem fetchBooks_year_filter (js : Builtins) (net : String → Reply) (s : State)
    (u : String) (data : SearchData) (y : Int)
    (hmode : s.searchType = "first_publish_year")
    (hy : parseInt (jsTrim s.activeQuery) = some y)
    (hok : Succeeds js net s u data) :
    (∀ b ∈ (fetchBooks js net s).state.books, b.first_publish_year = some y)
    ∧ List.Sublist (fetchBooks js net s).state.books (data.docs.getD []) := by
  rw [fetchBooks_of_succeeds js net s u data hok]
  have hpage : pageOfResponse s data =
      jsSlice ((data.docs.getD []).filter (yearMatches (some y)))
        (startIndex s.page) (startIndex s.page + perPage) := by
    unfold pageOfResponse
    simp [hmode, hy]
  simp only [hpage]
  constructor
  · intro b hb
    have hb' := (jsSlice_sublist _ _ _).subset hb
    exact (yearMatches_iff y b).1 (List.mem_filter.1 hb').2
  · exact (jsSlice_sublist _ _ _).trans (List.filter_sublist _)

/-- C3 on the mixed response `[book1999, book2000]` with requested year
2000. -/
theorem fetchBooks_year_filter_witness :
    yearState.searchType = "first_publish_year"
    ∧ parseInt (jsTrim yearState.activeQuery) = some 2000
    ∧ Succeeds exampleBuiltins yearNet yearState
        "https://openlibrary.org/search.json?q=first_publish_year:2000&page=1" yearData
    ∧ (∀ b ∈ (fetchBooks exampleBuiltins yearNet yearState).state.books,
        b.first_publish_year = some 2000)
    ∧ List.Sublist (fetchBooks exampleBuiltins yearNet yearState).state.books
        (yearData.docs.getD []) :=
  ⟨by decide, by decide, ⟨by decide, by decide, rfl⟩,
    fetchBooks_year_filter exampleBuiltins yearNet yearState
      "https://openlibrary.org/search.json?q=first_publish_year:2000&page=1" yearData 2000
      (by decide) (by decide) ⟨by decide, by decide, rfl⟩⟩

/-! ## Year validation -/

/-- C4, as stated, fails: the active query `1999abc` is not an integer, yet in
year mode `fetchBooks` builds the URL for the year 1999 and fetches it. -/
theorem fetchBooks_year_prefix_is_fetched :
    prefixYearState.searchType = "first_publish_year"
    ∧ isIntegerText prefixYearState.activeQuery = false
    ∧ buildRequest exampleBuiltins prefixYearState
        = Request.url "https://openlibrary.org/search.json?q=first_publish_year:1999&page=1"
    ∧ (fetchBooks exampleBuiltins yearNet prefixYearState).effects
        = [Effect.fetch "https://openlibrary.org/search.json?q=first_publish_year:1999&page=1"] :=
  ⟨by decide, by decide, by decide, by decide⟩

/-- C4, amended. In year mode, for every active query whose trimmed text
`parseInt` reads as `NaN` (such a query is never an integer), no URL is
fetched; when that query is not blank, no URL is built, the validation error
is signalled and the result is cleared; when it is blank, `fetchBooks`
returns at once. -/
theorem fetchBooks_rejects_unparsable_year (js : Builtins) (net : String → Reply)
    (s : State) (hmode : s.searchType = "first_publish_year")
    (hnan : parseInt (jsTrim s.activeQuery) = none) :
    isIntegerText s.activeQuery = false
    ∧ (∀ u, Effect.fetch u ∉ (fetchBooks js net s).effects)
    ∧ (strTruthy (jsTrim s.activeQuery) = true →
        buildRequest js s = Request.invalidYear
        ∧ fetchBooks js net s =
          ⟨{ s with books := [], numFound := 0, loading := false },
            [Effect.toastError "❌ Enter a valid year!"]⟩)
    ∧ (strTruthy (jsTrim s.activeQuery) = false → fetchBooks js net s = ⟨s, []⟩) := by
  have hint : isIntegerText s.activeQuery = false := by
    cases hi : isIntegerText s.activeQuery
    · rfl
    · have hsome := parseInt_isSome_of_isIntegerText s.activeQuery hi
      rw [hnan] at hsome
      exact Bool.noConfusion hsome
  have hreq : buildRequest js s = Request.invalidYear := by
    unfold buildRequest
    simp [hmode, hnan]
  have hrun : strTruthy (jsTrim s.activeQuery) = true → fetchBooks js net s =
        ⟨{ s with books := [], numFound := 0, loading := false },
          [Effect.toastError "❌ Enter a valid year!"]⟩ := by
    intro hq
    unfold fetchBooks
    simp [hq, hreq]
  have hblank : strTruthy (jsTrim s.activeQuery) = false → fetchBooks js net s = ⟨s, []⟩ := by
    intro hq
    unfold fetchBooks
    simp [hq]
  refine ⟨hint, ?_, fun hq => ⟨hreq, hrun hq⟩, hblank⟩
  intro u
  cases hq : strTruthy (jsTrim s.activeQuery)
  · rw [hblank hq]; simp
  · rw [hrun hq]; simp

/-- C4, amended, on the active query `abc`: the validation error is the only
effect and the displayed result is cleared. -/
theorem fetchBooks_rejects_unparsable_year_witness :
    wordYearState.searchType = "first_publish_year"
    ∧ parseInt (jsTrim wordYearState.activeQuery) = none
    ∧ (∀ u, Effect.fetch u ∉ (fetchBooks exampleBuiltins yearNet wordYearState).effects)
    ∧ fetchBooks exampleBuiltins yearNet wordYearState =
        ⟨{ wordYearState with books := [], numFound := 0, loading := false },
          [Effect.toastError "❌ Enter a valid year!"]⟩ :=
  ⟨by decide, by decide,
    (fetchBooks_rejects_unparsable_year exampleBuiltins yearNet wordYearState
      (by decide) (by decide)).2.1,
    ((fetchBooks_rejects_unparsable_year exampleBuiltins yearNet wordYearState
      (by decide) (by decide)).2.2.1 (by decide)).2⟩

/-! ## The bookmark store -/

/-- C5, as stated, fails: when the store holds under `/works/OL1W` an entry
that differs from the one built from the toggled book, two toggles leave the
entry built from the book, not the stored one. -/
theorem toggleBookmark_twice_replaces_entry :
    (toggleBookmark newBook (toggleBookmark newBook [("/works/OL1W", oldEntry)])).get
        "/works/OL1W" = some (bookmarkEntry newBook)
    ∧ (toggleBookmark newBook (toggleBookmark newBook [("/works/OL1W", oldEntry)])).get
        "/works/OL1W" ≠ Store.get [("/works/OL1W", oldEntry)] "/works/OL1W" :=
  ⟨by decide, by decide⟩

/-- C5, amended. Toggling `b` twice yields a store with the same keys as `s`
and the same entry under every key other than `b.key`; under `b.key`, when
present, the entry is the one built from `b`. Hence the store equals `s` (same
keys, same entries) exactly when `b.key` is absent from `s` or the entry of
`s` under `b.key` is the one built from `b`. -/
theorem toggleBookmark_twice (b : Book) (s : Store) :
    (∀ k, ((toggleBookmark b (toggleBookmark b s)).get k).isSome = (s.get k).isSome)
    ∧ (∀ k, k ≠ b.key → (toggleBookmark b (toggleBookmark b s)).get k = s.get k)
    ∧ ((s.get b.key).isSome = true →
        (toggleBookmark b (toggleBookmark b s)).get b.key = some (bookmarkEntry b))
    ∧ ((∀ k, (toggleBookmark b (toggleBookmark b s)).get k = s.get k)
        ↔ (s.get b.key = none ∨ s.get b.key = some (bookmarkEntry b))) := by
  refine ⟨?_, ?_, ?_, ?_⟩
  · intro k
    rw [toggleBookmark_twice_get]
    by_cases hk : k = b.key
    · subst hk; cases s.get b.key <;> simp
    · simp [hk]
  · intro k hk
    rw [toggleBookmark_twice_get, if_neg hk]
  · intro h
    rw [toggleBookmark_twice_get]
    cases hs : s.get b.key with
    | none => simp [hs] at h
    | some e => simp
  · constructor
    · intro h
      have hk := h b.key
      rw [toggleBookmark_twice_get] at hk
      cases hs : s.get b.key with
      | none => exact Or.inl rfl
      | some e =>
        right
        rw [hs] at hk
        simpa using hk.symm
    · intro h k
      rw [toggleBookmark_twice_get]
      by_cases hk : k = b.key
      · subst hk
        rcases h with h | h <;> simp [h]
      · simp [hk]

/-- C6. When `b.key` is present in `s`, `toggleBookmark b` yields `s` with
that key removed; otherwise it yields `s` with one added entry, stored under
`b.key` and built from `b`; the entry under every other key is unchanged.
Toggling a book with key `/works/OL1W` on the empty store yields a store with
exactly one entry, under that key. -/
theorem toggleBookmark_spec (b : Book) (s : Store) :
    ((s.get b.key).isSome = true →
        toggleBookmark b s = s.delete b.key ∧ (toggleBookmark b s).get b.key = none)
    ∧ (s.get b.key = none →
        toggleBookmark b s = s ++ [(b.key, bookmarkEntry b)]
        ∧ (toggleBookmark b s).get b.key = some (bookmarkEntry b)
        ∧ (toggleBookmark b s).keys.length = s.keys.length + 1)
    ∧ (bookmarkEntry b).key = b.key
    ∧ (∀ k, k ≠ b.key → (toggleBookmark b s).get k = s.get k)
    ∧ (b.key = "/works/OL1W" →
        toggleBookmark b [] = [("/works/OL1W", bookmarkEntry b)]
        ∧ (toggleBookmark b []).keys = ["/works/OL1W"]) := by
  refine ⟨?_, ?_, rfl, ?_, ?_⟩
  · intro h
    rw [toggleBookmark_present b s h]
    exact ⟨rfl, Store.get_delete_self s b.key⟩
  · intro h
    rw [toggleBookmark_absent b s h]
    refine ⟨rfl, ?_, ?_⟩
    · rw [Store.get_append_single, h]; simp
    · simp [Store.keys]
  · intro k hk
    cases hs : s.get b.key with
    | none =>
      rw [toggleBookmark_absent b s hs, Store.get_append_single]
      have hk' : ¬ b.key = k := fun e => hk e.symm
      cases hsk : s.get k <;> simp [hk']
    | some e =>
      rw [toggleBookmark_present b s (by simp [hs])]
      exact Store.get_delete_ne s b.key k hk
  · intro hkey
    have h := toggleBookmark_absent b [] (Store.get_nil b.key)
    rw [h, hkey]
    exact ⟨rfl, rfl⟩

/-! ## The query controller -/

/-- C7. In mode `all` with a title, author or year input that is empty or
only whitespace, and in any other mode with such a search term,
`handleSearch` signals a validation error and leaves the state unchanged:
`activeQuery` and `page` keep their values and no fetch is triggered. -/
theorem handleSearch_rejects_blank (js : Builtins) (s : State)
    (h : (s.searchType = "all"
            ∧ (isBlank s.titleInput = true ∨ isBlank s.authorInput = true
                ∨ isBlank s.yearInput = true))
          ∨ (s.searchType ≠ "all" ∧ isBlank s.queryInput = true)) :
    handleSearch js s =
        ⟨s, [Effect.toastError (if s.searchType = "all"
              then "❌ Fill all fields for 'Search by All'"
              else "❌ Invalid input! Please enter a search term.")]⟩
    ∧ (handleSearch js s).state = s
    ∧ (handleSearch js s).state.activeQuery = s.activeQuery
    ∧ (handleSearch js s).state.page = s.page
    ∧ fetchTriggered s (handleSearch js s).state = false := by
  have hrun : handleSearch js s =
        ⟨s, [Effect.toastError (if s.searchType = "all"
              then "❌ Fill all fields for 'Search by All'"
              else "❌ Invalid input! Please enter a search term.")]⟩ := by
    unfold handleSearch
    rcases h with ⟨hm, hb⟩ | ⟨hm, hb⟩
    · have hcond : (!strTruthy (jsTrim s.titleInput) || !strTruthy (jsTrim s.authorInput)
          || !strTruthy (jsTrim s.yearInput)) = true := by
        rcases hb with hb | hb | hb <;> simp [strTruthy_jsTrim_of_isBlank _ hb]
      rw [if_pos (by simp [hm]), if_pos hcond, if_pos hm]
    · rw [if_neg (by simpa using hm), if_pos (by simp [strTruthy_jsTrim_of_isBlank _ hb]),
        if_neg hm]
  have hst : (handleSearch js s).state = s := by rw [hrun]
  refine ⟨hrun, hst, ?_, ?_, ?_⟩
  · rw [hst]
  · rw [hst]
  · rw [hst]; exact fetchTriggered_self s

/-- C7 on the submission of mode `all` with an empty author. -/
theorem handleSearch_rejects_blank_witness :
    (allModeState.searchType = "all" ∧ isBlank allModeState.authorInput = true)
    ∧ handleSearch exampleBuiltins allModeState =
        ⟨allModeState, [Effect.toastError "❌ Fill all fields for 'Search by All'"]⟩
    ∧ fetchTriggered allModeState (handleSearch exampleBuiltins allModeState).state = false :=
  ⟨⟨by decide, by decide⟩,
    (handleSearch_rejects_blank exampleBuiltins allModeState
      (Or.inl ⟨by decide, Or.inr (Or.inl (by decide))⟩)).1,
    (handleSearch_rejects_blank exampleBuiltins allModeState
      (Or.inl ⟨by decide, Or.inr (Or.inl (by decide))⟩)).2.2.2.2⟩

/-- The handler `goBackToTrending`, unlike `changeMode`, empties `books` and
so brings the trending view back once loading is over. -/
theorem goBackToTrending_clears_books (s : State) :
    (goBackToTrending s).books = []
    ∧ showsTrending (goBackToTrending s) = !s.loading := by
  unfold goBackToTrending showsTrending
  simp

/-- C8, as stated, fails: changing the mode while results are displayed
leaves `books` and `numFound` as they were, and the trending view is not
shown. -/
theorem changeMode_keeps_result :
    (changeMode "author" resultsState).books = [book2000]
    ∧ (changeMode "author" resultsState).numFound = 25
    ∧ showsTrending (changeMode "author" resultsState) = false :=
  ⟨by decide, by decide, by decide⟩

/-- C8, amended. Changing the search mode selects the new mode, resets the
page to 1, clears all pending input fields and clears the active criteria,
and triggers no fetch. -/
theorem changeMode_clears_inputs (value : String) (s : State) :
    (changeMode value s).searchType = value
    ∧ (changeMode value s).page = 1
    ∧ (changeMode value s).queryInput = ""
    ∧ (changeMode value s).titleInput = ""
    ∧ (changeMode value s).authorInput = ""
    ∧ (changeMode value s).yearInput = ""
    ∧ (changeMode value s).activeQuery = ""
    ∧ fetchTriggered s (changeMode value s) = false := by
  refine ⟨rfl, rfl, rfl, rfl, rfl, rfl, rfl, ?_⟩
  unfold fetchTriggered changeMode
  simp [jsTrim, trimChars, strTruthy]

/-! ## Sentinels -/

/-- C9 on the code. For a book with no cover reference, `imgSrc` returns
`PLACEHOLDER_L` for size `L` and `PLACEHOLDER_M` for size `M`, but for size
`S` it returns `PLACEHOLDER_M`, which is not `PLACEHOLDER_S`. -/
theorem imgSrc_no_cover_placeholder (b : Book) (hi : b.cover_i = none)
    (hid : b.cover_id = none) (he : b.edition_key = none ∨ b.edition_key = some []) :
    imgSrc b "L" = PLACEHOLDER_L ∧ imgSrc b "M" = PLACEHOLDER_M
    ∧ imgSrc b "S" = PLACEHOLDER_M ∧ imgSrc b "S" ≠ PLACEHOLDER_S := by
  refine ⟨?_, ?_, ?_, ?_⟩
  · rw [imgSrc_of_no_cover b _ hi hid he]; rfl
  · rw [imgSrc_of_no_cover b _ hi hid he]; rfl
  · rw [imgSrc_of_no_cover b _ hi hid he]; rfl
  · rw [imgSrc_of_no_cover b _ hi hid he]; decide

/-- C9 at the record `/works/OL1W` without any cover field, size `S`. -/
theorem imgSrc_no_cover_placeholder_witness :
    (bareBook "/works/OL1W").cover_i = none ∧ (bareBook "/works/OL1W").cover_id = none
    ∧ (bareBook "/works/OL1W").edition_key = none
    ∧ imgSrc (bareBook "/works/OL1W") "S"
        = "https://via.placeholder.com/150x220?text=No+Cover"
    ∧ imgSrc (bareBook "/works/OL1W") "S" ≠ PLACEHOLDER_S :=
  ⟨rfl, rfl, rfl,
    (imgSrc_no_cover_placeholder (bareBook "/works/OL1W") rfl rfl (Or.inl rfl)).2.2.1,
    (imgSrc_no_cover_placeholder (bareBook "/works/OL1W") rfl rfl (Or.inl rfl)).2.2.2⟩

/-- C10. For a record missing every author field (`author_name` absent or
empty; `authors` absent, empty, or with a first element whose name is absent
or empty, as when no element has a name), the author stored in the bookmark
entry and the author shown on the book cards are exactly `Unknown Author`. -/
theorem unknown_author_sentinel (b : Book)
    (hn : b.author_name = none ∨ b.author_name = some [])
    (ha : b.authors = none ∨ b.authors = some []
          ∨ ∃ a rest, b.authors = some (a :: rest) ∧ (a.name = none ∨ a.name = some "")) :
    (bookmarkEntry b).author = some "Unknown Author"
    ∧ (∀ s : Store, s.get b.key = none →
        ((toggleBookmark b s).get b.key).bind Book.author = some "Unknown Author")
    ∧ cardAuthor b = "Unknown Author" := by
  have h1 : truthyStr (b.author_name.bind List.head?) = none := by
    rcases hn with hn | hn <;> simp [hn, truthyStr]
  have h2 : truthyStr ((b.authors.bind List.head?).bind Author.name) = none := by
    rcases ha with ha | ha | ⟨a, rest, ha, hname | hname⟩
    · simp [ha, truthyStr]
    · simp [ha, truthyStr]
    · simp [ha, hname, truthyStr]
    · simp [ha, hname, truthyStr, strTruthy]
  have hentry : (bookmarkEntry b).author = some "Unknown Author" := by
    unfold bookmarkEntry
    simp [h1, h2]
  refine ⟨hentry, ?_, ?_⟩
  · intro s hs
    rw [toggleBookmark_absent b s hs, Store.get_append_single, hs]
    simpa using hentry
  · unfold cardAuthor
    simp [h1, h2]

/-- C10 at a record with an empty `author_name` and a nameless author. -/
theorem unknown_author_sentinel_witness :
    authorlessBook.author_name = some []
    ∧ authorlessBook.authors = some [{ name := none }]
    ∧ (bookmarkEntry authorlessBook).author = some "Unknown Author"
    ∧ cardAuthor authorlessBook = "Unknown Author" :=
  ⟨rfl, rfl,
    (unknown_author_sentinel authorlessBook (Or.inr rfl)
      (Or.inr (Or.inr ⟨{ name := none }, [], rfl, Or.inl rfl⟩))).1,
    (unknown_author_sentinel authorlessBook (Or.inr rfl)
      (Or.inr (Or.inr ⟨{ name := none }, [], rfl, Or.inl rfl⟩))).2.2⟩

/-! ## Trending failures -/

/-- C11, as stated, fails: with a daily list on display, a failed fetch of
the weekly list leaves that list in place, not the empty list; the loading
flag is cleared. -/
theorem fetchTrending_failure_keeps_stale_list :
    failingNet (trendingUrl "weekly") = TrendingReply.failure
    ∧ (fetchTrending failingNet "weekly" trendingState).state.trending
        = [book1999, book2000]
    ∧ (fetchTrending failingNet "weekly" trendingState).state.trending ≠ []
    ∧ (fetchTrending failingNet "weekly" trendingState).state.trendingLoading = false :=
  ⟨rfl, by decide, by decide, by decide⟩

/-- C11, amended. When a trending fetch fails, the trending list keeps its
prior value, so it is empty afterwards exactly when it was empty before; the
failure is logged and the trending loading flag is cleared. -/
theorem fetchTrending_failure (net : String → TrendingReply) (type : String) (s : State)
    (hfail : net (trendingUrl type) = TrendingReply.failure) :
    fetchTrending net type s =
        ⟨{ s with trendingLoading := false },
          [Effect.fetch (trendingUrl type), Effect.consoleError]⟩
    ∧ (fetchTrending net type s).state.trending = s.trending
    ∧ ((fetchTrending net type s).state.trending = [] ↔ s.trending = [])
    ∧ (fetchTrending net type s).state.trendingLoading = false := by
  have hrun : fetchTrending net type s =
        ⟨{ s with trendingLoading := false },
          [Effect.fetch (trendingUrl type), Effect.consoleError]⟩ := by
    unfold fetchTrending
    rw [hfail]
  rw [hrun]
  exact ⟨rfl, rfl, Iff.rfl, rfl⟩

/-- C11, amended, on the failed fetch of the weekly list. -/
theorem fetchTrending_failure_witness :
    failingNet (trendingUrl "weekly") = TrendingReply.failure
    ∧ (fetchTrending failingNet "weekly" trendingState).state.trending
        = trendingState.trending
    ∧ (fetchTrending failingNet "weekly" trendingState).state.trendingLoading = false :=
  ⟨rfl, (fetchTrending_failure failingNet "weekly" trendingState rfl).2.1,
    (fetchTrending_failure failingNet "weekly" trendingState rfl).2.2.2⟩

/-! ## Bookmarks at start-up -/

/-- C12, as stated, fails: the stored text `[1]` is not the serialization of
a bookmark map, yet the initial state is the parsed array, not the empty
map. -/
theorem initialBookmarks_keeps_non_map :
    exampleParse "[1]" = some (Json.arr [Json.num 1])
    ∧ isBookmarkMap (Json.arr [Json.num 1]) = false
    ∧ initialBookmarks exampleParse (StorageItem.text "[1]") = Json.arr [Json.num 1]
    ∧ initialBookmarks exampleParse (StorageItem.text "[1]") ≠ Json.obj [] := by
  have h1 : exampleParse "[1]" = some (Json.arr [Json.num 1]) := rfl
  have h2 : initialBookmarks exampleParse (StorageItem.text "[1]")
      = Json.arr [Json.num 1] := by
    unfold initialBookmarks
    simp only [h1]
    rfl
  refine ⟨h1, rfl, h2, ?_⟩
  rw [h2]
  exact fun h => Json.noConfusion h

/-- C12, amended. The initializer always returns a value. It returns the
empty map when the storage entry cannot be read or is absent, when its text is
not JSON, and when the text parses to a falsy value; it returns every other
parsed value as it is, a serialized bookmark map among them. (`JSON.parse`
reads the text `null` as `null`.) -/
theorem initialBookmarks_spec (parse : String → Option Json)
    (hnull : parse "null" = some Json.null) :
    initialBookmarks parse StorageItem.throws = Json.obj []
    ∧ initialBookmarks parse StorageItem.absent = Json.obj []
    ∧ (∀ content, parse content = none →
        initialBookmarks parse (StorageItem.text content) = Json.obj [])
    ∧ (∀ content v, parse content = some v → v.truthy = false →
        initialBookmarks parse (StorageItem.text content) = Json.obj [])
    ∧ (∀ content v, parse content = some v → v.truthy = true →
        initialBookmarks parse (StorageItem.text content) = v)
    ∧ (∀ content v, parse content = some v → isBookmarkMap v = true →
        initialBookmarks parse (StorageItem.text content) = v) := by
  have htruthy : ∀ content v, parse content = some v → v.truthy = true →
      initialBookmarks parse (StorageItem.text content) = v := by
    intro content v h hv
    unfold initialBookmarks
    simp only [h, hv]
    rfl
  refine ⟨rfl, ?_, ?_, ?_, htruthy, ?_⟩
  · unfold initialBookmarks
    simp only [hnull]
    rfl
  · intro content h
    unfold initialBookmarks
    simp only [h]
  · intro content v h hv
    unfold initialBookmarks
    simp only [h, hv]
    rfl
  · intro content v h hv
    exact htruthy content v h (isBookmarkMap_truthy v hv)

/-- C12, amended, on an absent entry, on the text `not json` and on the text
`0`: the initial store is the empty map. -/
theorem initialBookmarks_spec_witness :
    exampleParse "null" = some Json.null
    ∧ initialBookmarks exampleParse StorageItem.absent = Json.obj []
    ∧ initialBookmarks exampleParse (StorageItem.text "not json") = Json.obj []
    ∧ initialBookmarks exampleParse (StorageItem.text "0") = Json.obj [] :=
  ⟨rfl, (initialBookmarks_spec exampleParse rfl).2.1,
    (initialBookmarks_spec exampleParse rfl).2.2.1 "not json" rfl,
    (initialBookmarks_spec exampleParse rfl).2.2.2.1 "0" (Json.num 0) rfl rfl⟩

/-! ## The window of a local page -/

/-- C13. For every local page `p ≥ 1`: `(apiPage - 1) * 100 + startIndex =
(p - 1) * 10` and `startIndex + 10 ≤ 100`; the window of page `p + 1` starts
10 positions after that of page `p` (no overlap, no gap); and the slice
`[startIndex, startIndex + 10)` of upstream page `apiPage` of a result list
(pages of 100) is the positions `[(p - 1) * 10, p * 10)` of that list. -/
theorem pagination_window {α : Type} (all : List α) (p : Int) (hp : 1 ≤ p) :
    (apiPage p - 1) * 100 + startIndex p = (p - 1) * 10
    ∧ 0 ≤ startIndex p ∧ startIndex p + 10 ≤ 100
    ∧ (apiPage (p + 1) - 1) * 100 + startIndex (p + 1)
        = ((apiPage p - 1) * 100 + startIndex p) + 10
    ∧ jsSlice ((all.drop ((apiPage p - 1) * 100).toNat).take 100)
          (startIndex p) (startIndex p + perPage)
        = (all.drop ((p - 1) * 10).toNat).take 10 := by
  obtain ⟨a, m, ha, hs, hsum, hm⟩ := pagination_decompose p hp
  obtain ⟨a', m', ha', hs', hsum', _⟩ := pagination_decompose (p + 1) (by omega)
  refine ⟨?_, ?_, ?_, ?_, ?_⟩
  · rw [ha, hs, hsum]; push_cast; ring
  · rw [hs]; omega
  · rw [hs]; omega
  · rw [ha', hs', ha, hs]
    push_cast at hsum hsum'
    omega
  · rw [ha, hs, hsum, Int.toNat_ofNat, Int.toNat_ofNat]
    exact slice_of_upstream_page all a m hm

/-- C13 at local page 12 of a result list of 250 items: the slice of upstream
page 2 at offset 10 is the positions 110 to 119. -/
theorem pagination_window_witness :
    (1 : Int) ≤ 12
    ∧ (apiPage 12 - 1) * 100 + startIndex 12 = (12 - 1) * 10
    ∧ startIndex 12 + 10 ≤ 100
    ∧ jsSlice ((positions250.drop ((apiPage 12 - 1) * 100).toNat).take 100)
          (startIndex 12) (startIndex 12 + perPage)
        = [110, 111, 112, 113, 114, 115, 116, 117, 118, 119] :=
  ⟨by decide, (pagination_window positions250 12 (by decide)).1,
    (pagination_window positions250 12 (by decide)).2.2.1,
    (pagination_window positions250 12 (by decide)).2.2.2.2.trans (by decide)⟩

/-! ## The cover of a bookmark entry -/

/-- C14. For every book `b` and every size, the cover URL of the bookmark
entry built from `b` is the cover URL of `b`, also for the entry that
`toggleBookmark` stores under `b.key`. -/
theorem bookmark_cover_url (b : Book) (size : String) :
    imgSrc (bookmarkEntry b) size = imgSrc b size
    ∧ ∀ s : Store, s.get b.key = none →
        ((toggleBookmark b s).get b.key).map (fun e => imgSrc e size)
          = some (imgSrc b size) := by
  refine ⟨imgSrc_bookmarkEntry_eq b size, ?_⟩
  intro s hs
  rw [toggleBookmark_absent b s hs, Store.get_append_single, hs]
  simp [imgSrc_bookmarkEntry_eq b size]

end BookFinder
